import Mathlib

/-!
Verification of the umanager USB device backend
(`src/umanager/backend/device/{base_service,storage_service,registry}.py`).

Strings from the Python sources are modelled as `List Char`; the Windows
API surface (SetupDi / CfgMgr32 / WMI), which the Python code reaches only
through `ctypes`/`wmi`, is modelled as an explicit environment record.
All text handling is modelled at the ASCII level (the device strings the
backend manipulates are ASCII), so Python's `str.upper`/`str.casefold`
are modelled with per-character ASCII case mapping.
-/

namespace UManager

/-- Instance-id strings and other device strings, as lists of characters. -/
abbrev IStr := List Char

/-- Shorthand turning a Lean string literal into the `List Char` model. -/
def chars (s : String) : IStr := s.toList

/-- Prepend a character to the first piece of a split result
(helper for the `str.split` models). -/
def consHead (c : Char) : List IStr → List IStr
  | [] => [[c]]
  | h :: t => (c :: h) :: t

/-- Python `s.split("\\")` (split on a single backslash, keeping empty
pieces), used by `UsbBaseDeviceService._parse_usb_ids`. -/
def splitBS : IStr → List IStr
  | [] => [[]]
  | c :: tl => if c = '\\' then [] :: splitBS tl else consHead c (splitBS tl)

/-- Python `s.split("\\\\")` (split on two consecutive backslashes,
left-to-right, non-overlapping), used by
`UsbBaseDeviceService._parse_usb_ids`. -/
def splitBS2 : IStr → List IStr
  | [] => [[]]
  | '\\' :: '\\' :: tl => [] :: splitBS2 tl
  | c :: tl => consHead c (splitBS2 tl)

/-- Python `instance_id.replace("\\\\", "\\")`
(`RegistryDeviceUtil._normalize_instance_id` and the inline copy in
`UsbBaseDeviceService._setupapi_get_device_property_raw`): every
non-overlapping occurrence of two backslashes becomes one, left to right. -/
def normalize_instance_id : IStr → IStr
  | [] => []
  | '\\' :: '\\' :: tl => '\\' :: normalize_instance_id tl
  | c :: tl => c :: normalize_instance_id tl

/-- ASCII model of Python `str.upper` on one character. -/
def pyUpperChar (c : Char) : Char := c.toUpper

/-- ASCII model of Python `str.upper`. -/
def pyUpper (s : IStr) : IStr := s.map pyUpperChar

/-- ASCII model of Python `str.casefold` (for ASCII text this is
lower-casing). -/
def pyCasefold (s : IStr) : IStr := s.map Char.toLower

/-- Python substring test `sub in s`: `sub` occurs contiguously in `s`. -/
def pyContains : IStr → IStr → Bool
  | [], sub => sub.isPrefixOf ([] : IStr)
  | c :: tl, sub => sub.isPrefixOf (c :: tl) || pyContains tl sub

/-- Python `s.startswith(p)`. -/
def pyStartswith (s p : IStr) : Bool := p.isPrefixOf s

/-- Python `" ".join(pieces)`. -/
def joinSpace (pieces : List IStr) : IStr := List.intercalate [' '] pieces

/-- Lexicographic `≤` on character lists by code point, the order Python
uses to compare the (case-folded) sort keys in
`list.sort(key=lambda d: d.instance_id.casefold())`. -/
def lexLe : IStr → IStr → Bool
  | [], _ => true
  | _ :: _, [] => false
  | a :: as_, b :: bs_ => if a = b then lexLe as_ bs_ else decide (a < b)

/-- Character class `[0-9A-Fa-f]` of the VID/PID regular expressions. -/
def isHexDigitPy (c : Char) : Bool :=
  (decide ('0' ≤ c) && decide (c ≤ '9')) ||
  (decide ('A' ≤ c) && decide (c ≤ 'F')) ||
  (decide ('a' ≤ c) && decide (c ≤ 'f'))

/-- One anchored attempt of the regex `MARKER([0-9A-Fa-f]{4})` at the head
of `l` (the marker is a literal, matched case-sensitively: the patterns
`VID_([0-9A-Fa-f]{4})` / `PID_([0-9A-Fa-f]{4})` are compiled without
`re.IGNORECASE`).  Returns the captured 4-hex-digit group. -/
def tokenMatchAt (marker : IStr) (l : IStr) : Option IStr :=
  if marker.isPrefixOf l then
    match l.drop marker.length with
    | a :: b :: c :: d :: _ =>
        if isHexDigitPy a && isHexDigitPy b && isHexDigitPy c && isHexDigitPy d then
          some [a, b, c, d]
        else none
    | _ => none
  else none

/-- `re.search` for `MARKER([0-9A-Fa-f]{4})`: leftmost match wins. -/
def searchToken (marker : IStr) : IStr → Option IStr
  | [] => none
  | c :: tl =>
    match tokenMatchAt marker (c :: tl) with
    | some g => some g
    | none => searchToken marker tl

/-- The marker of `UsbBaseDeviceService._VID_PATTERN`. -/
def vidMarker : IStr := chars "VID_"

/-- The marker of `UsbBaseDeviceService._PID_PATTERN`. -/
def pidMarker : IStr := chars "PID_"

/-- Result record of `UsbBaseDeviceService._parse_usb_ids`
(`_ParsedUsbIds`). -/
structure ParsedUsbIds where
  vendor_id : Option IStr
  product_id : Option IStr
  serial_number : Option IStr
deriving DecidableEq, Repr

/-- `UsbBaseDeviceService._parse_usb_ids` (base_service.py:288-309):
regex search for the VID/PID groups (upper-cased), then the serial is the
last piece of the instance id split on a double backslash — or, when that
split has fewer than 3 pieces, split on a single backslash — provided the
split has at least 3 pieces and the last piece is non-empty. -/
def parse_usb_ids (instance_id : IStr) : ParsedUsbIds :=
  let vendor_id := (searchToken vidMarker instance_id).map pyUpper
  let product_id := (searchToken pidMarker instance_id).map pyUpper
  let parts0 := splitBS2 instance_id
  let parts := if parts0.length < 3 then splitBS instance_id else parts0
  let serial_number :=
    if 3 ≤ parts.length ∧ parts.getLast? ≠ some [] ∧ parts.getLast? ≠ none then
      parts.getLast?
    else none
  { vendor_id := vendor_id, product_id := product_id, serial_number := serial_number }

/-- Numeric value of a run of ASCII decimal digits (Python `int` applied
to a regex `\d+` group, which is all digits). -/
def digitsToNat (l : IStr) : Nat :=
  l.foldl (fun acc c => acc * 10 + (c.toNat - 48)) 0

/-- One anchored attempt of the regex `MARKER(\d+)` at the head of `l`:
the literal marker followed by at least one digit; the group is the
maximal digit run (greedy `\d+`). -/
def digitsMatchAt (marker : IStr) (l : IStr) : Option IStr :=
  if marker.isPrefixOf l then
    match (l.drop marker.length).takeWhile Char.isDigit with
    | [] => none
    | d :: ds => some (d :: ds)
  else none

/-- `re.search` for `MARKER(\d+)`: leftmost match wins. -/
def searchDigits (marker : IStr) : IStr → Option IStr
  | [] => none
  | c :: tl =>
    match digitsMatchAt marker (c :: tl) with
    | some g => some g
    | none => searchDigits marker tl

/-- `UsbBaseDeviceService._parse_bus_port` (base_service.py:311-333):
`None` input → `(None, None)`; otherwise `Port_#(\d+)` yields the port
number and `Hub_#(\d+)` yields the bus number, independently. -/
def parse_bus_port (location_information : Option IStr) : Option Nat × Option Nat :=
  match location_information with
  | none => (none, none)
  | some li =>
    if li = [] then (none, none)
    else
      let port_number := (searchDigits (chars "Port_#") li).map digitsToNat
      let bus_number := (searchDigits (chars "Hub_#") li).map digitsToNat
      (bus_number, port_number)

/-- The `text` variable of `_infer_usb_speed` (base_service.py:344):
`" ".join([t for t in [name, description, caption, service] if t])`. -/
def speedText (service name description caption : IStr) : IStr :=
  joinSpace ([name, description, caption, service].filter (fun t => t ≠ []))

/-- The `compatible` variable of `_infer_usb_speed` (base_service.py:345):
`" ".join(compatible_ids or [])`. -/
def speedCompat (compatible_ids : Option (List IStr)) : IStr :=
  joinSpace (compatible_ids.getD [])

/-- `UsbBaseDeviceService._infer_usb_speed` (base_service.py:335-363).
Speeds are modelled as exact rationals (the Python floats 5000.0, 10000.0,
480.0, 12.0, 1.5 are all exactly representable). -/
def infer_usb_speed (compatible_ids : Option (List IStr)) (service name description caption : IStr) :
    Option IStr × Option ℚ :=
  let text := speedText service name description caption
  let compatible := speedCompat compatible_ids
  if pyContains (pyUpper compatible) (chars "USB30")
      || pyContains (pyUpper service) (chars "USBHUB3")
      || pyContains (pyUpper text) (chars "SUPERSPEED")
      || pyContains (pyUpper name) (chars "3.0") then
    (some (chars "3.0"), some 5000)
  else if pyContains (pyUpper text) (chars "SUPERSPEEDPLUS") then
    (some (chars "3.1"), some 10000)
  else if pyContains (pyUpper text) (chars "HIGH-SPEED")
      || pyContains (pyUpper text) (chars "HIGHSPEED") then
    (some (chars "2.0"), some 480)
  else if pyContains (pyUpper text) (chars "FULL-SPEED")
      || pyContains (pyUpper text) (chars "FULLSPEED") then
    (some (chars "1.1"), some 12)
  else if pyContains (pyUpper text) (chars "LOW-SPEED")
      || pyContains (pyUpper text) (chars "LOWSPEED") then
    (some (chars "1.0"), some (3 / 2))
  else (none, none)

/-- A WMI `Win32_PnPEntity` record as consumed by the services
(the `_PnPEntity` protocol of base_service.py / storage_service.py). -/
structure PnPEntity where
  PNPDeviceID : IStr
  Name : Option IStr := none
  Manufacturer : Option IStr := none
  Description : Option IStr := none
  Caption : Option IStr := none
  Service : Option IStr := none
  PNPClass : Option IStr := none
  CompatibleID : Option (List IStr) := none
  HardwareID : Option (List IStr) := none
deriving DecidableEq, Repr

/-- `UsbBaseDeviceService._is_usb_candidate` (base_service.py:267-286):
instance id starts with `"USB"`, or PnP class upper-cases to `"USB"`, or
some hardware id starts with `"USB\"` or `"USBSTOR\"`, or some compatible
id starts with `"USB\"` — all prefix tests case-sensitive. -/
def is_usb_candidate (candidate : PnPEntity) : Bool :=
  let instance_id := candidate.PNPDeviceID
  if pyStartswith instance_id (chars "USB") then true
  else if (match candidate.PNPClass with
           | some pc => pc ≠ [] && pyUpper pc = chars "USB"
           | none => false) then true
  else if (candidate.HardwareID.getD []).any
      (fun hid => pyStartswith hid (chars "USB\\") || pyStartswith hid (chars "USBSTOR\\")) then
    true
  else if (candidate.CompatibleID.getD []).any
      (fun cid => pyStartswith cid (chars "USB\\")) then
    true
  else false

/-- `UsbStorageDeviceService._is_usb_storage_pnp_entity`
(storage_service.py:138-148): the instance id upper-cases to a string
starting with `"USBSTOR\"`, or some hardware id does. -/
def is_usb_storage_pnp_entity (entity : PnPEntity) : Bool :=
  if pyStartswith (pyUpper entity.PNPDeviceID) (chars "USBSTOR\\") then true
  else (entity.HardwareID.getD []).any
    (fun hid => pyStartswith (pyUpper hid) (chars "USBSTOR\\"))

/-! ## OS boundary

The `ctypes` calls into setupapi / cfgmgr32 and the WMI queries are the
program's external boundary; they are modelled as an explicit environment
record.  `propRaw` stands for
`_setupapi_get_device_property_raw(instance_id, prop)` — the SetupDi
enumeration that locates the (unique) present device whose instance id
case-insensitively matches the already-normalized argument and returns the
requested registry property's bytes (`None` when device or property is
absent).  `locate`, `getParent`, `getDeviceId`, `requestEject` stand for
`CM_Locate_DevNodeW`, `CM_Get_Parent`, `CM_Get_Device_IDW`,
`CM_Request_Device_EjectW`; each returns the CONFIGRET status code plus
its output parameters. -/

/-- Bytes returned by a registry property query. -/
abbrev Bytes := List Nat

/-- `DeviceEjectResult` (protocol.py). -/
structure DeviceEjectResult where
  success : Bool
  attempted_instance_id : IStr
  config_ret : Nat
  veto_type : Option Int := none
  veto_name : Option IStr := none
deriving DecidableEq, Repr

/-- `UsbDeviceId` (protocol.py). -/
structure UsbDeviceId where
  instance_id : IStr
deriving DecidableEq, Repr

/-- A WMI `Win32_LogicalDisk` record (the `_WmiLogicalDisk` protocol of
storage_service.py). -/
structure WmiLogicalDisk where
  DeviceID : Option IStr := none
  FileSystem : Option IStr := none
  VolumeName : Option IStr := none
  Size : Option IStr := none
  FreeSpace : Option IStr := none
deriving DecidableEq, Repr

/-- A WMI `Win32_DiskPartition` record together with the result of its
`associators("Win32_LogicalDiskToPartition")` call (an associator call
that raises is modelled by the empty list, as the `except` handler in
`_get_volumes_for_partition` produces). -/
structure WmiDiskPartition where
  logicalDisks : List WmiLogicalDisk := []
deriving DecidableEq, Repr

/-- A WMI `Win32_DiskDrive` record together with the result of its
`associators("Win32_DiskDriveToDiskPartition")` call (a raising call is
modelled by the empty list, as in `_get_volumes_for_disk`). -/
structure WmiDiskDrive where
  PNPDeviceID : IStr
  partitions : List WmiDiskPartition := []
deriving DecidableEq, Repr

/-- The OS environment: Windows device APIs and WMI, as seen through the
`ctypes`/`wmi` boundary of the Python code. -/
structure DeviceEnv where
  /-- `CM_Locate_DevNodeW`: status code and located devnode handle. -/
  locate : IStr → Nat × Nat
  /-- `CM_Get_Parent`: status code and parent devnode handle. -/
  getParent : Nat → Nat × Nat
  /-- `CM_Get_Device_IDW`: status code and the node's instance id. -/
  getDeviceId : Nat → Nat × IStr
  /-- `CM_Request_Device_EjectW`: status code, veto type, veto name
  (empty string when the OS reports none). -/
  requestEject : Nat → Nat × Int × IStr
  /-- `_setupapi_get_device_property_raw`: registry property bytes of the
  present device matching the given normalized instance id. -/
  propRaw : IStr → Nat → Option Bytes
  /-- `wmi.WMI().Win32_PnPEntity()`: all present PnP records. -/
  allPnpEntities : List PnPEntity
  /-- `wmi.WMI().Win32_DiskDrive(InterfaceType="USB")`: the USB disk-drive
  records (`_scan_usb_disk_drives_uncached`, storage_service.py:150-151). -/
  usbDiskDrives : List WmiDiskDrive

/-- UTF-16LE code units of a byte string; a trailing odd byte is dropped
(`errors="ignore"`). -/
def utf16Units : Bytes → List Nat
  | b0 :: b1 :: rest => (b0 + 256 * b1) :: utf16Units rest
  | _ => []

/-- Decode UTF-16 code units to characters, pairing surrogates and
skipping unpaired surrogates (`errors="ignore"`). -/
def utf16Chars : List Nat → IStr
  | [] => []
  | [u] =>
    if (0xD800 ≤ u ∧ u ≤ 0xDBFF) ∨ (0xDC00 ≤ u ∧ u ≤ 0xDFFF) then []
    else [Char.ofNat u]
  | u :: v :: rest =>
    if 0xD800 ≤ u ∧ u ≤ 0xDBFF then
      if 0xDC00 ≤ v ∧ v ≤ 0xDFFF then
        Char.ofNat (0x10000 + (u - 0xD800) * 0x400 + (v - 0xDC00)) :: utf16Chars rest
      else utf16Chars (v :: rest)
    else if 0xDC00 ≤ u ∧ u ≤ 0xDFFF then utf16Chars (v :: rest)
    else Char.ofNat u :: utf16Chars (v :: rest)

/-- Python `s.rstrip("\x00")`. -/
def rstripNull (s : IStr) : IStr :=
  (s.reverse.dropWhile (fun c => c = '\x00')).reverse

/-- `raw.decode("utf-16le", errors="ignore").rstrip("\x00") or None`
(the shared body of `_setupapi_get_device_property_string` in
registry.py:112-116 and base_service.py:101-106). -/
def decodePropString (raw : Option Bytes) : Option IStr :=
  match raw with
  | none => none
  | some bs_ =>
    let s := rstripNull (utf16Chars (utf16Units bs_))
    if s = [] then none else some s

/-- `int.from_bytes(raw[:4], "little", signed=False)` guarded by
`len(raw) >= 4` (the shared body of `_setupapi_get_device_property_dword`
in registry.py:118-123 and base_service.py:108-112). -/
def decodePropDword (raw : Option Bytes) : Option Nat :=
  match raw with
  | none => none
  | some (b0 :: b1 :: b2 :: b3 :: _) => some (b0 + 256 * (b1 + 256 * (b2 + 256 * b3)))
  | some _ => none

/-- Encode an ASCII string as UTF-16LE property bytes (used to build
concrete environments in witnesses; inverse of the decoder on ASCII). -/
def asciiUtf16 (s : IStr) : Bytes :=
  s.flatMap (fun c => [c.toNat % 256, c.toNat / 256])

namespace Registry

/-- `RegistryDeviceUtil._setupapi_get_device_property_string`
(registry.py:111-116): raw query on the given id (normalized inside the
raw query), decoded as a NUL-trimmed UTF-16LE string. -/
def setupapi_get_device_property_string (env : DeviceEnv) (instance_id : IStr) (prop : Nat) :
    Option IStr :=
  decodePropString (env.propRaw (normalize_instance_id instance_id) prop)

/-- `RegistryDeviceUtil._setupapi_get_device_property_dword`
(registry.py:118-123). -/
def setupapi_get_device_property_dword (env : DeviceEnv) (instance_id : IStr) (prop : Nat) :
    Option Nat :=
  decodePropDword (env.propRaw (normalize_instance_id instance_id) prop)

/-- Loop body of `RegistryDeviceUtil._get_parent_instance_ids`
(registry.py:292-312): up to `fuel` steps of parent-walking from devnode
`cur`, stopping at the first failed parent lookup, failed id lookup, or
empty id. -/
def getParentsLoop (env : DeviceEnv) : Nat → Nat → List IStr
  | _, 0 => []
  | cur, fuel + 1 =>
    let p := env.getParent cur
    if p.1 ≠ 0 then []
    else
      let d := env.getDeviceId p.2
      if d.1 ≠ 0 then []
      else if d.2 = [] then []
      else d.2 :: getParentsLoop env p.2 fuel

/-- `RegistryDeviceUtil._get_parent_instance_ids` (registry.py:280-312):
locate the node, then walk parents up to `max_depth` times. -/
def get_parent_instance_ids (env : DeviceEnv) (instance_id : IStr) (max_depth : Nat) : List IStr :=
  let loc := env.locate instance_id
  if loc.1 ≠ 0 then []
  else getParentsLoop env loc.2 max_depth

/-- `RegistryDeviceUtil._iter_instance_id_with_ancestors`
(registry.py:271-278): the normalized id followed by its ancestors
(default depth bound 10). -/
def iter_instance_id_with_ancestors (env : DeviceEnv) (instance_id : IStr)
    (max_depth : Nat := 10) : List IStr :=
  let normalized := normalize_instance_id instance_id
  normalized :: get_parent_instance_ids env normalized max_depth

/-- First non-`none` result of `f` over a list (the shape of both
`*_with_parent_fallback` loops in registry.py:87-109). -/
def firstSome (f : α → Option β) : List α → Option β
  | [] => none
  | c :: cs_ =>
    match f c with
    | some v => some v
    | none => firstSome f cs_

/-- `RegistryDeviceUtil._setupapi_get_device_property_string_with_parent_fallback`
(registry.py:87-97). -/
def setupapi_get_device_property_string_with_parent_fallback
    (env : DeviceEnv) (instance_id : IStr) (prop : Nat) : Option IStr :=
  firstSome (fun candidate_id => setupapi_get_device_property_string env candidate_id prop)
    (iter_instance_id_with_ancestors env instance_id)

/-- `RegistryDeviceUtil._setupapi_get_device_property_dword_with_parent_fallback`
(registry.py:99-109). -/
def setupapi_get_device_property_dword_with_parent_fallback
    (env : DeviceEnv) (instance_id : IStr) (prop : Nat) : Option Nat :=
  firstSome (fun candidate_id => setupapi_get_device_property_dword env candidate_id prop)
    (iter_instance_id_with_ancestors env instance_id)

/-- `RegistryDeviceUtil.SPDRP_LOCATION_INFORMATION`. -/
def SPDRP_LOCATION_INFORMATION : Nat := 0x0000000D

/-- `RegistryDeviceUtil.SPDRP_BUSNUMBER`. -/
def SPDRP_BUSNUMBER : Nat := 0x00000015

/-- `RegistryDeviceUtil.get_device_location_information`
(registry.py:52-57): ancestor-fallback string property lookup. -/
def get_device_location_information (env : DeviceEnv) (instance_id : IStr) : Option IStr :=
  setupapi_get_device_property_string_with_parent_fallback env instance_id
    SPDRP_LOCATION_INFORMATION

/-- `RegistryDeviceUtil.get_device_bus_number` (registry.py:59-64):
ancestor-fallback dword property lookup. -/
def get_device_bus_number (env : DeviceEnv) (instance_id : IStr) : Option Nat :=
  setupapi_get_device_property_dword_with_parent_fallback env instance_id SPDRP_BUSNUMBER

/-- `RegistryDeviceUtil._request_device_eject_single`
(registry.py:227-269): locate the node (on the normalized id); a locate
failure yields a failing result with that status; otherwise issue the
eject request — status 0 yields success with `config_ret = 0`, any other
status yields a failing result carrying the veto type and (non-empty)
veto name. -/
def request_device_eject_single (env : DeviceEnv) (instance_id : IStr) : DeviceEjectResult :=
  let loc := env.locate (normalize_instance_id instance_id)
  if loc.1 ≠ 0 then
    { success := false, attempted_instance_id := instance_id, config_ret := loc.1 }
  else
    let ej := env.requestEject loc.2
    if ej.1 = 0 then
      { success := true, attempted_instance_id := instance_id, config_ret := ej.1 }
    else
      { success := false
        attempted_instance_id := instance_id
        config_ret := ej.1
        veto_type := some ej.2.1
        veto_name := if ej.2.2 = [] then none else some ej.2.2 }

/-- Loop of `RegistryDeviceUtil.request_device_eject` (registry.py:216-225):
attempt each candidate in turn, returning immediately on success and
otherwise remembering the last attempted result. -/
def requestEjectLoop (env : DeviceEnv) : List IStr → DeviceEjectResult → DeviceEjectResult
  | [], last_result => last_result
  | candidate_id :: rest, _ =>
    let res := request_device_eject_single env candidate_id
    if res.success then res else requestEjectLoop env rest res

/-- `RegistryDeviceUtil.request_device_eject` (registry.py:206-225). -/
def request_device_eject (env : DeviceEnv) (instance_id : IStr) : DeviceEjectResult :=
  let normalized := normalize_instance_id instance_id
  let last_result : DeviceEjectResult :=
    { success := false, attempted_instance_id := normalized, config_ret := 0 }
  requestEjectLoop env (iter_instance_id_with_ancestors env normalized) last_result

end Registry

/-- Python `x or default` on an optional string: `None` and the empty
string are falsy. -/
def pyOrStr (x : Option IStr) (default : IStr) : IStr :=
  match x with
  | some s => if s = [] then default else s
  | none => default

/-- Python `x or y` on two optional strings (`description or name` in
`get_base_device_info`). -/
def pyOrOpt (x y : Option IStr) : Option IStr :=
  match x with
  | some s => if s = [] then y else some s
  | none => y

/-- `UsbBaseDeviceInfo` (protocol.py). -/
structure UsbBaseDeviceInfo where
  id : UsbDeviceId
  vendor_id : Option IStr := none
  product_id : Option IStr := none
  manufacturer : Option IStr := none
  product : Option IStr := none
  serial_number : Option IStr := none
  bus_number : Option Nat := none
  port_number : Option Nat := none
  usb_version : Option IStr := none
  speed_mbps : Option ℚ := none
  description : Option IStr := none
deriving DecidableEq, Repr

namespace UsbBase

/-- `UsbBaseDeviceService._setupapi_get_device_property_string`
(base_service.py:101-106). Its raw query
(`_setupapi_get_device_property_raw`, base_service.py:114-250) is an
inline duplicate of the registry's SetupDi query — normalize the id, then
locate the matching present device and read the property bytes — so it is
modelled by the same environment function. -/
def setupapi_get_device_property_string (env : DeviceEnv) (instance_id : IStr) (prop : Nat) :
    Option IStr :=
  decodePropString (env.propRaw (normalize_instance_id instance_id) prop)

/-- `UsbBaseDeviceService._setupapi_get_device_property_dword`
(base_service.py:108-112). -/
def setupapi_get_device_property_dword (env : DeviceEnv) (instance_id : IStr) (prop : Nat) :
    Option Nat :=
  decodePropDword (env.propRaw (normalize_instance_id instance_id) prop)

/-- `UsbBaseDeviceService._get_device_location_information`
(base_service.py:88-94): a DIRECT property query on the given node only —
unlike `RegistryDeviceUtil.get_device_location_information`, no ancestor
fallback. -/
def get_device_location_information (env : DeviceEnv) (instance_id : IStr) : Option IStr :=
  setupapi_get_device_property_string env instance_id Registry.SPDRP_LOCATION_INFORMATION

/-- `UsbBaseDeviceService._get_device_bus_number` (base_service.py:96-99):
a DIRECT property query on the given node only. -/
def get_device_bus_number (env : DeviceEnv) (instance_id : IStr) : Option Nat :=
  setupapi_get_device_property_dword env instance_id Registry.SPDRP_BUSNUMBER

/-- `UsbBaseDeviceService._scan_usb_pnp_entities` (base_service.py:252-265):
all present PnP records with a non-empty instance id that pass
`_is_usb_candidate`. -/
def scan_usb_pnp_entities (env : DeviceEnv) : List PnPEntity :=
  env.allPnpEntities.filter (fun candidate =>
    candidate.PNPDeviceID ≠ [] && is_usb_candidate candidate)

/-- Sort key comparison used by `list_base_device_ids` /
`_get_usb_device_ids`: ascending case-folded instance id (Python
`sort(key=lambda d: d.instance_id.casefold())`, a stable sort). -/
def idLe (a b : UsbDeviceId) : Bool :=
  lexLe (pyCasefold a.instance_id) (pyCasefold b.instance_id)

/-- `UsbBaseDeviceService.list_base_device_ids` (base_service.py:38-43). -/
def list_base_device_ids (env : DeviceEnv) : List UsbDeviceId :=
  ((scan_usb_pnp_entities env).map (fun e => UsbDeviceId.mk e.PNPDeviceID)).mergeSort idLe

/-- `UsbBaseDeviceService.get_base_device_info` (base_service.py:45-86).
The `FileNotFoundError` raised when no scanned entity matches is modelled
as `none`.  Location information and bus number come from the service's
own direct (non-fallback) property lookups. -/
def get_base_device_info (env : DeviceEnv) (device_id : UsbDeviceId) :
    Option UsbBaseDeviceInfo :=
  match (scan_usb_pnp_entities env).find? (fun c => c.PNPDeviceID = device_id.instance_id) with
  | none => none
  | some entity =>
    let parsed := parse_usb_ids device_id.instance_id
    let name := entity.Name
    let description := entity.Description
    let location_information := get_device_location_information env device_id.instance_id
    let bus_number := get_device_bus_number env device_id.instance_id
    let port_number := (parse_bus_port location_information).2
    let inferred := infer_usb_speed entity.CompatibleID
      (pyOrStr entity.Service (chars "<unknown-service>"))
      (pyOrStr name (chars "<unknown-name>"))
      (pyOrStr description (chars "<unknown-description>"))
      (pyOrStr entity.Caption (chars "<unknown-caption>"))
    some
      { id := device_id
        vendor_id := parsed.vendor_id
        product_id := parsed.product_id
        manufacturer := entity.Manufacturer
        product := name
        serial_number := parsed.serial_number
        bus_number := bus_number
        port_number := port_number
        usb_version := inferred.1
        speed_mbps := inferred.2
        description := pyOrOpt description name }

/-- Modelled from the spec: `UsbBaseDeviceService.get_usb_pnp_entities` is
called by `UsbStorageDeviceService._scan_usb_storage_devices_uncached`
(storage_service.py:113) but has no definition in `base_service.py` as
present under src; spec §4.6 describes the base service as holding "a
cached snapshot of classified USB device records", i.e. the result of the
USB-candidate scan, which this accessor exposes. -/
def get_usb_pnp_entities (env : DeviceEnv) : List PnPEntity :=
  scan_usb_pnp_entities env

end UsbBase

/-- `UsbVolumeInfo` (protocol.py); the `Path` mount point is modelled by
its string. -/
structure UsbVolumeInfo where
  drive_letter : Option IStr := none
  mount_path : Option IStr := none
  file_system : Option IStr := none
  volume_label : Option IStr := none
  total_bytes : Option Int := none
  free_bytes : Option Int := none
deriving DecidableEq, Repr

namespace UsbStorage

/-- ASCII model of the whitespace stripped by Python `str.strip()`. -/
def isPyWs (c : Char) : Bool :=
  c = ' ' || c = '\t' || c = '\n' || c = '\x0d' || c = '\x0b' || c = '\x0c'

/-- Python `s.strip()` (ASCII whitespace model). -/
def pyStrip (s : IStr) : IStr :=
  ((s.dropWhile isPyWs).reverse.dropWhile isPyWs).reverse

/-- Digit tail of a Python decimal integer literal: digits with single
underscores allowed between digits (`int("1_0") == 10`); accumulates the
value. -/
def pyDigitTail : Nat → IStr → Option Nat
  | acc, [] => some acc
  | acc, '_' :: c :: rest =>
    if c.isDigit then pyDigitTail (acc * 10 + (c.toNat - 48)) rest else none
  | acc, c :: rest =>
    if c.isDigit then pyDigitTail (acc * 10 + (c.toNat - 48)) rest else none

/-- A Python decimal digit part: non-empty, starts with a digit, single
underscores only between digits. -/
def pyDigitPart : IStr → Option Nat
  | [] => none
  | c :: rest => if c.isDigit then pyDigitTail (c.toNat - 48) rest else none

/-- Python `int(s)` on an already-stripped string: optional sign followed
by a decimal digit part; any other shape raises (modelled as `none`).
(ASCII model: Python also accepts non-ASCII decimal digits.) -/
def pyInt : IStr → Option Int
  | '+' :: rest => (pyDigitPart rest).map Int.ofNat
  | '-' :: rest => (pyDigitPart rest).map (fun n => -(Int.ofNat n))
  | s => (pyDigitPart s).map Int.ofNat

/-- `UsbStorageDeviceService._parse_optional_int`
(storage_service.py:200-211) restricted to its `Optional[str]` callers
(`Size`/`FreeSpace` of `_WmiLogicalDisk` are optional strings): `None` →
`None`; otherwise strip, empty → `None`, then `int(...)` with any failure
absorbed to `None`. -/
def parse_optional_int (value : Option IStr) : Option Int :=
  match value with
  | none => none
  | some v =>
    let s := pyStrip v
    if s = [] then none else pyInt s

/-- Volume record built for one logical disk inside
`UsbStorageDeviceService._get_volumes_for_partition`
(storage_service.py:177-196). -/
def volume_of_logical_disk (ld : WmiLogicalDisk) : UsbVolumeInfo :=
  let drive := ld.DeviceID
  let mount_path : Option IStr :=
    match drive with
    | some d => if d = [] then none else some (d ++ ['\\'])
    | none => none
  { drive_letter := drive
    mount_path := mount_path
    file_system := ld.FileSystem
    volume_label := ld.VolumeName
    total_bytes := parse_optional_int ld.Size
    free_bytes := parse_optional_int ld.FreeSpace }

/-- `UsbStorageDeviceService._get_volumes_for_partition`
(storage_service.py:167-198). -/
def get_volumes_for_partition (partition : WmiDiskPartition) : List UsbVolumeInfo :=
  partition.logicalDisks.map volume_of_logical_disk

/-- Sort comparison of `_get_volumes_for_disk`: ascending case-folded
drive letter, absent letters as the empty string. -/
def volLe (a b : UsbVolumeInfo) : Bool :=
  lexLe (pyCasefold (a.drive_letter.getD [])) (pyCasefold (b.drive_letter.getD []))

/-- `UsbStorageDeviceService._get_volumes_for_disk`
(storage_service.py:153-165): all partitions' volumes, sorted by
case-folded drive letter (stable). -/
def get_volumes_for_disk (disk : WmiDiskDrive) : List UsbVolumeInfo :=
  ((disk.partitions.map get_volumes_for_partition).flatten).mergeSort volLe

/-- `_StorageScanResult` (storage_service.py:41-44); the
`volumes_by_instance_id` dict is modelled as an association list in
insertion order. -/
structure StorageScanResult where
  device_ids : List UsbDeviceId
  volumes_by_instance_id : List (IStr × List UsbVolumeInfo)
deriving DecidableEq, Repr

/-- Python `dict` lookup with default on an insertion-ordered association
list: the LAST binding of a key wins (later assignments overwrite). -/
def dictGet (m : List (IStr × List UsbVolumeInfo)) (k : IStr) : List UsbVolumeInfo :=
  (((m.reverse).find? (fun p => p.1 = k)).map (fun p => p.2)).getD []

/-- The mutable cache fields of `UsbStorageDeviceService`
(storage_service.py:50-59).  `base_refreshes` counts invocations of
`UsbBaseDeviceService.refresh`, which storage `refresh` forwards to;
modelled from the spec (§4.6) since `base_service.py` as present under
src has no `refresh` definition. -/
structure StorageState where
  usb_device_ids_cache : Option (List UsbDeviceId) := none
  usb_volumes_map_cache : Option (List (IStr × List UsbVolumeInfo)) := none
  usb_disk_drives_cache : Option (List WmiDiskDrive) := none
  base_refreshes : Nat := 0
deriving DecidableEq, Repr

/-- Python truthiness test `not cache` on an optional list: `None` and the
empty list are both falsy, so an empty cached list also triggers a
rescan. -/
def cacheFalsy : Option (List α) → Bool
  | none => true
  | some l => l.isEmpty

/-- `UsbStorageDeviceService.refresh` (storage_service.py:61-66): refresh
the base service, then drop all three caches. -/
def refresh (s : StorageState) : StorageState :=
  { usb_device_ids_cache := none
    usb_volumes_map_cache := none
    usb_disk_drives_cache := none
    base_refreshes := s.base_refreshes + 1 }

/-- `UsbStorageDeviceService._get_usb_disk_drives`
(storage_service.py:106-110), threading the cache state. -/
def get_usb_disk_drives (env : DeviceEnv) (s : StorageState) :
    List WmiDiskDrive × StorageState :=
  if cacheFalsy s.usb_disk_drives_cache then
    (env.usbDiskDrives, { s with usb_disk_drives_cache := some env.usbDiskDrives })
  else (s.usb_disk_drives_cache.getD [], s)

/-- `UsbStorageDeviceService._scan_usb_storage_devices_uncached`
(storage_service.py:112-136): filter the base service's USB entities down
to storage entities, resolve each USB disk drive's volumes, and join by
instance id. -/
def scan_usb_storage_devices_uncached (env : DeviceEnv) (s : StorageState) :
    StorageScanResult × StorageState :=
  let entities := UsbBase.get_usb_pnp_entities env
  let storage_instance_ids :=
    (entities.filter is_usb_storage_pnp_entity).map (fun e => e.PNPDeviceID)
  let dres := get_usb_disk_drives env s
  let disk_volume_map := dres.1.map (fun d => (d.PNPDeviceID, get_volumes_for_disk d))
  let device_ids := storage_instance_ids.map UsbDeviceId.mk
  let volumes_by_instance_id :=
    storage_instance_ids.map (fun iid => (iid, dictGet disk_volume_map iid))
  ({ device_ids := device_ids, volumes_by_instance_id := volumes_by_instance_id }, dres.2)

/-- `UsbStorageDeviceService._get_usb_device_ids`
(storage_service.py:88-95): populate both caches from a fresh scan when
the id cache is falsy, sorting the ids by case-folded instance id. -/
def get_usb_device_ids (env : DeviceEnv) (s : StorageState) :
    List UsbDeviceId × StorageState :=
  if cacheFalsy s.usb_device_ids_cache then
    let sres := scan_usb_storage_devices_uncached env s
    let ids := sres.1.device_ids.mergeSort UsbBase.idLe
    (ids, { sres.2 with
              usb_device_ids_cache := some ids
              usb_volumes_map_cache := some sres.1.volumes_by_instance_id })
  else (s.usb_device_ids_cache.getD [], s)

/-- `UsbStorageDeviceService.list_storage_device_ids`
(storage_service.py:68-69). -/
def list_storage_device_ids (env : DeviceEnv) (s : StorageState) :
    List UsbDeviceId × StorageState :=
  get_usb_device_ids env s

/-- Observable outcome of one `eject_storage_device` call: the returned
result (`none` models the raised `FileNotFoundError`), the service state
afterwards, and whether an OS eject request was issued at all. -/
structure EjectCallOutcome where
  outcome : Option DeviceEjectResult
  state : StorageState
  ejectIssued : Bool
deriving DecidableEq, Repr

/-- `UsbStorageDeviceService.eject_storage_device`
(storage_service.py:79-86): raise `FileNotFoundError` when the requested
id is not in the current storage id list (issuing no eject request);
otherwise delegate to `RegistryDeviceUtil.request_device_eject` and, only
on a successful result, refresh. -/
def eject_storage_device (env : DeviceEnv) (s : StorageState) (device_id : UsbDeviceId) :
    EjectCallOutcome :=
  let idsres := get_usb_device_ids env s
  if ¬ idsres.1.any (fun d => d.instance_id = device_id.instance_id) then
    { outcome := none, state := idsres.2, ejectIssued := false }
  else
    let result := Registry.request_device_eject env device_id.instance_id
    let s2 := if result.success then refresh idsres.2 else idsres.2
    { outcome := some result, state := s2, ejectIssued := true }

end UsbStorage

/-! ## Supporting lemmas -/

/-- A successful single eject attempt is exactly the success record for
that candidate: success is only produced in the `cr == CR_SUCCESS` branch,
which carries the attempted candidate and `config_ret = 0`. -/
theorem request_single_success_shape (env : DeviceEnv) (c : IStr)
    (h : (Registry.request_device_eject_single env c).success = true) :
    Registry.request_device_eject_single env c =
      { success := true, attempted_instance_id := c, config_ret := 0 } := by
  unfold Registry.request_device_eject_single at h ⊢
  by_cases hcr : (env.locate (normalize_instance_id c)).1 ≠ 0
  · simp [hcr] at h
  · by_cases hcr2 : (env.requestEject (env.locate (normalize_instance_id c)).2).1 = 0
    · simp [hcr, hcr2]
    · simp [hcr, hcr2] at h

/-- If every candidate's single attempt fails, the eject loop returns the
last candidate's result. -/
theorem requestEjectLoop_all_fail (env : DeviceEnv) :
    ∀ (l : List IStr) (r : DeviceEjectResult) (last : IStr),
      (∀ c ∈ l, (Registry.request_device_eject_single env c).success = false) →
      l.getLast? = some last →
      Registry.requestEjectLoop env l r = Registry.request_device_eject_single env last := by
  intro l
  induction l with
  | nil => intro r last _ hlast; simp at hlast
  | cons c rest ih =>
    intro r last hfail hlast
    have hc : (Registry.request_device_eject_single env c).success = false :=
      hfail c (List.mem_cons_self c rest)
    rw [Registry.requestEjectLoop, hc]
    simp only [Bool.false_eq_true, if_false]
    cases rest with
    | nil =>
      simp at hlast
      subst hlast
      rfl
    | cons d t =>
      have hlast2 : (d :: t).getLast? = some last := by
        simpa [List.getLast?_cons_cons] using hlast
      exact ih _ last (fun x hx => hfail x (List.mem_cons_of_mem c hx)) hlast2

/-- The eject loop stops at the first succeeding candidate and returns
its result. -/
theorem requestEjectLoop_first_success (env : DeviceEnv) :
    ∀ (l1 : List IStr) (c : IStr) (l2 : List IStr) (r : DeviceEjectResult),
      (∀ x ∈ l1, (Registry.request_device_eject_single env x).success = false) →
      (Registry.request_device_eject_single env c).success = true →
      Registry.requestEjectLoop env (l1 ++ c :: l2) r =
        Registry.request_device_eject_single env c := by
  intro l1
  induction l1 with
  | nil =>
    intro c l2 r _ hsucc
    rw [List.nil_append, Registry.requestEjectLoop, hsucc]
    simp
  | cons x xs ih =>
    intro c l2 r hfail hsucc
    have hx : (Registry.request_device_eject_single env x).success = false :=
      hfail x (List.mem_cons_self x xs)
    rw [List.cons_append, Registry.requestEjectLoop, hx]
    simp only [Bool.false_eq_true, if_false]
    exact ih c l2 _ (fun y hy => hfail y (List.mem_cons_of_mem x hy)) hsucc

/-- A prefix test against a concatenation also passes against the left
part alone. -/
theorem isPrefixOf_append_left (a : IStr) :
    ∀ (b l : IStr), (a ++ b).isPrefixOf l = true → a.isPrefixOf l = true := by
  induction a with
  | nil => intro b l _; cases l <;> rfl
  | cons x xs ih =>
    intro b l h
    cases l with
    | nil => simp [List.isPrefixOf] at h
    | cons y ys =>
      simp only [List.cons_append, List.isPrefixOf, Bool.and_eq_true] at h ⊢
      exact ⟨h.1, ih b ys h.2⟩

/-- If a concatenation occurs as a substring, so does its left part. -/
theorem pyContains_append_left (s : IStr) :
    ∀ (a b : IStr), pyContains s (a ++ b) = true → pyContains s a = true := by
  induction s with
  | nil =>
    intro a b h
    rw [pyContains] at h ⊢
    cases a with
    | nil => rfl
    | cons x xs => simp [List.isPrefixOf] at h
  | cons c tl ih =>
    intro a b h
    rw [pyContains] at h ⊢
    rcases Bool.or_eq_true_iff.mp h with h1 | h2
    · exact Bool.or_eq_true_iff.mpr (Or.inl (isPrefixOf_append_left a b _ h1))
    · exact Bool.or_eq_true_iff.mpr (Or.inr (ih a b h2))

/-- `firstSome` returns `none` exactly when the query is absent on every
element. -/
theorem firstSome_eq_none_iff (f : α → Option β) (l : List α) :
    Registry.firstSome f l = none ↔ ∀ c ∈ l, f c = none := by
  induction l with
  | nil => simp [Registry.firstSome]
  | cons c cs ih =>
    rw [Registry.firstSome]
    cases hfc : f c with
    | some v => simp [hfc]
    | none => simp [hfc, ih]

/-- `firstSome` returns the first present value. -/
theorem firstSome_first (f : α → Option β) :
    ∀ (l1 : List α) (c : α) (l2 : List α) (v : β),
      (∀ x ∈ l1, f x = none) → f c = some v →
      Registry.firstSome f (l1 ++ c :: l2) = some v := by
  intro l1
  induction l1 with
  | nil =>
    intro c l2 v _ hc
    rw [List.nil_append, Registry.firstSome, hc]
  | cons x xs ih =>
    intro c l2 v hnone hc
    rw [List.cons_append, Registry.firstSome,
      hnone x (List.mem_cons_self x xs)]
    exact ih c l2 v (fun y hy => hnone y (List.mem_cons_of_mem x hy)) hc

/-- The anchored token match never succeeds on the empty string. -/
theorem tokenMatchAt_nil (m : IStr) : tokenMatchAt m [] = none := by
  cases m with
  | nil => rfl
  | cons x xs => simp [tokenMatchAt, List.isPrefixOf]

/-- The leftmost-match search fails exactly when no position matches. -/
theorem searchToken_eq_none_iff (m : IStr) :
    ∀ (l : IStr), searchToken m l = none ↔ ∀ i, tokenMatchAt m (l.drop i) = none := by
  intro l
  induction l with
  | nil => simp [searchToken, tokenMatchAt_nil]
  | cons c tl ih =>
    rw [searchToken]
    cases h0 : tokenMatchAt m (c :: tl) with
    | some g =>
      simp only []
      constructor
      · intro hh; exact absurd hh (by simp)
      · intro hall
        have h00 := hall 0
        rw [List.drop_zero, h0] at h00
        exact absurd h00 (by simp)
    | none =>
      simp only []
      constructor
      · intro h i
        cases i with
        | zero => rw [List.drop_zero]; exact h0
        | succ j => rw [List.drop_succ_cons]; exact (ih.mp h) j
      · intro hall
        exact ih.mpr (fun i => by
          have := hall (i + 1)
          rwa [List.drop_succ_cons] at this)

/-- The leftmost-match search returns the group of the first matching
position. -/
theorem searchToken_first (m : IStr) :
    ∀ (l : IStr) (i : Nat) (g : IStr),
      tokenMatchAt m (l.drop i) = some g →
      (∀ j, j < i → tokenMatchAt m (l.drop j) = none) →
      searchToken m l = some g := by
  intro l
  induction l with
  | nil =>
    intro i g hmatch _
    rw [List.drop_nil, tokenMatchAt_nil] at hmatch
    exact absurd hmatch (by simp)
  | cons c tl ih =>
    intro i g hmatch hbefore
    cases i with
    | zero =>
      rw [List.drop_zero] at hmatch
      rw [searchToken, hmatch]
    | succ j =>
      have h0 : tokenMatchAt m (c :: tl) = none := by
        have := hbefore 0 (Nat.succ_pos j)
        rwa [List.drop_zero] at this
      rw [searchToken, h0]
      rw [List.drop_succ_cons] at hmatch
      exact ih j g hmatch (fun k hk => by
        have := hbefore (k + 1) (Nat.succ_lt_succ hk)
        rwa [List.drop_succ_cons] at this)

/-- No two consecutive backslashes occur in the string (under this guard
the double-backslash pre-split of `_parse_usb_ids` is inert). -/
def noDoubleBackslash : IStr → Bool
  | [] => true
  | '\\' :: '\\' :: _ => false
  | _ :: tl => noDoubleBackslash tl

/-- Without consecutive backslashes, splitting on a double backslash
returns the whole string as the single piece. -/
theorem splitBS2_eq_single (s : IStr) (h : noDoubleBackslash s = true) :
    splitBS2 s = [s] := by
  induction s using splitBS2.induct with
  | case1 => rfl
  | case2 tl _ =>
    have hfalse : noDoubleBackslash ('\\' :: '\\' :: tl) = false := rfl
    rw [hfalse] at h
    exact absurd h (by simp)
  | case3 c tl hne ih =>
    have htl : noDoubleBackslash tl = true := by
      rw [noDoubleBackslash.eq_3 c tl hne] at h
      exact h
    rw [splitBS2.eq_3 c tl hne, ih htl, consHead]

/-- Mapping a function over both lists preserves the prefix test. -/
theorem isPrefixOf_map (f : Char → Char) :
    ∀ (a l : IStr), a.isPrefixOf l = true → (a.map f).isPrefixOf (l.map f) = true := by
  intro a
  induction a with
  | nil => intro l _; cases l <;> rfl
  | cons x xs ih =>
    intro l h
    cases l with
    | nil => simp [List.isPrefixOf] at h
    | cons y ys =>
      simp only [List.map_cons, List.isPrefixOf, Bool.and_eq_true, beq_iff_eq] at h ⊢
      exact ⟨by rw [h.1], ih ys h.2⟩

/-- A record whose hardware-id list passes the USB/USBSTOR prefix test is
a USB candidate (third branch of `_is_usb_candidate`). -/
theorem is_usb_candidate_of_any_hid (e : PnPEntity)
    (h : (e.HardwareID.getD []).any
        (fun hid => pyStartswith hid (chars "USB\\") ||
          pyStartswith hid (chars "USBSTOR\\")) = true) :
    is_usb_candidate e = true := by
  simp [is_usb_candidate, h]

/-! ## Concrete test environments (fixtures for witnesses and
counterexamples) -/

/-- A two-node topology: device `"A"` (devnode 1) with parent `"B"`
(devnode 2); ejecting `"A"` is vetoed, ejecting `"B"` succeeds. -/
def envC1 : DeviceEnv :=
  { locate := fun iid =>
      if iid = chars "A" then (0, 1) else if iid = chars "B" then (0, 2) else (13, 0)
    getParent := fun d => if d = 1 then (0, 2) else (37, 0)
    getDeviceId := fun d => if d = 2 then (0, chars "B") else (13, [])
    requestEject := fun d => if d = 2 then (0, 0, []) else (23, 5, chars "app.exe")
    propRaw := fun _ _ => none
    allPnpEntities := []
    usbDiskDrives := [] }

/-- Same two-node topology as `envC1`, but carrying registry properties:
node `"A"` has neither the location-information nor the bus-number
property, its parent `"B"` has both. -/
def envC7 : DeviceEnv :=
  { locate := fun iid =>
      if iid = chars "A" then (0, 1) else if iid = chars "B" then (0, 2) else (13, 0)
    getParent := fun d => if d = 1 then (0, 2) else (37, 0)
    getDeviceId := fun d => if d = 2 then (0, chars "B") else (13, [])
    requestEject := fun _ => (23, 0, [])
    propRaw := fun iid prop =>
      if iid = chars "B" ∧ prop = Registry.SPDRP_LOCATION_INFORMATION then
        some (asciiUtf16 (chars "Port_#0003.Hub_#0002"))
      else if iid = chars "B" ∧ prop = Registry.SPDRP_BUSNUMBER then
        some [9, 0, 0, 0]
      else none
    allPnpEntities := []
    usbDiskDrives := [] }

/-- A USB record `"USB\A"` whose devnode (1) has a parent `"USB\HUB"`
(devnode 2); the node itself carries NO registry properties, the parent
carries both location information and a bus number. -/
def entC3 : PnPEntity := { PNPDeviceID := chars "USB\\A" }

/-- Environment for `entC3`. -/
def envC3 : DeviceEnv :=
  { locate := fun iid =>
      if iid = chars "USB\\A" then (0, 1)
      else if iid = chars "USB\\HUB" then (0, 2)
      else (13, 0)
    getParent := fun d => if d = 1 then (0, 2) else (37, 0)
    getDeviceId := fun d => if d = 2 then (0, chars "USB\\HUB") else (13, [])
    requestEject := fun _ => (23, 0, [])
    propRaw := fun iid prop =>
      if iid = chars "USB\\HUB" ∧ prop = Registry.SPDRP_LOCATION_INFORMATION then
        some (asciiUtf16 (chars "Port_#0004.Hub_#0001"))
      else if iid = chars "USB\\HUB" ∧ prop = Registry.SPDRP_BUSNUMBER then
        some [7, 0, 0, 0]
      else none
    allPnpEntities := [entC3]
    usbDiskDrives := [] }

/-- A storage entity with the canonical upper-case `USBSTOR\` instance-id
prefix. -/
def entC2 : PnPEntity := { PNPDeviceID := chars "USBSTOR\\DISK&VEN_X\\0123" }

/-- An environment whose device directory holds exactly `entC2`. -/
def envC2 : DeviceEnv :=
  { locate := fun _ => (13, 0)
    getParent := fun _ => (37, 0)
    getDeviceId := fun _ => (13, [])
    requestEject := fun _ => (23, 0, [])
    propRaw := fun _ _ => none
    allPnpEntities := [entC2]
    usbDiskDrives := [] }

/-- A bare environment in which every locate fails (so any eject attempt
fails); used for the C8 witness. -/
def envC8 : DeviceEnv :=
  { locate := fun _ => (13, 0)
    getParent := fun _ => (37, 0)
    getDeviceId := fun _ => (13, [])
    requestEject := fun _ => (23, 0, [])
    propRaw := fun _ _ => none
    allPnpEntities := []
    usbDiskDrives := [] }

/-- A storage-service state with one cached storage id `"D1"`. -/
def sC8 : UsbStorage.StorageState :=
  { usb_device_ids_cache := some [UsbDeviceId.mk (chars "D1")] }

/-- A partition whose single logical disk reports MORE free space than
total size (corrupt OS data): `Size = "1000"`, `FreeSpace = "2000"`. -/
def partC9 : WmiDiskPartition :=
  { logicalDisks := [{ DeviceID := some (chars "E:")
                       Size := some (chars "1000")
                       FreeSpace := some (chars "2000") }] }

/-- A well-formed logical disk: `Size = "1000"`, `FreeSpace = "500"`. -/
def ldC9ok : WmiLogicalDisk :=
  { DeviceID := some (chars "E:")
    Size := some (chars "1000")
    FreeSpace := some (chars "500") }

/-- A partition holding only `ldC9ok`. -/
def partC9ok : WmiDiskPartition := { logicalDisks := [ldC9ok] }

/-- The volume `partC9ok` resolves to. -/
def volC9ok : UsbVolumeInfo :=
  { drive_letter := some (chars "E:")
    mount_path := some (chars "E:\\")
    total_bytes := some 1000
    free_bytes := some 500 }

end UManager

namespace UManager

/-! ## Claims -/

/-- C1: `request_device_eject` iterates `[self] + ancestors` in order;
the first candidate whose eject request returns status 0 terminates the
loop immediately with a successful result whose `attempted_instance_id`
is that candidate and whose `config_ret` is 0; if every candidate fails,
the engine returns the result of the last attempted candidate. -/
theorem claim_C1_eject_first_success_else_last (env : DeviceEnv) (instance_id : IStr) :
    (∀ l1 c l2,
        Registry.iter_instance_id_with_ancestors env (normalize_instance_id instance_id) =
          l1 ++ c :: l2 →
        (∀ x ∈ l1, (Registry.request_device_eject_single env x).success = false) →
        (Registry.request_device_eject_single env c).success = true →
        Registry.request_device_eject env instance_id =
          { success := true, attempted_instance_id := c, config_ret := 0 }) ∧
    (∀ last,
        (∀ x ∈ Registry.iter_instance_id_with_ancestors env (normalize_instance_id instance_id),
          (Registry.request_device_eject_single env x).success = false) →
        (Registry.iter_instance_id_with_ancestors env
            (normalize_instance_id instance_id)).getLast? = some last →
        Registry.request_device_eject env instance_id =
          Registry.request_device_eject_single env last) := by
  constructor
  · intro l1 c l2 hsplit hfail hsucc
    simp only [Registry.request_device_eject]
    rw [hsplit, requestEjectLoop_first_success env l1 c l2 _ hfail hsucc]
    exact request_single_success_shape env c hsucc
  · intro last hall hlast
    simp only [Registry.request_device_eject]
    exact requestEjectLoop_all_fail env _ _ last hall hlast

/-- Witness for C1: in the concrete topology `envC1`, ejecting `"A"`
fails on `"A"` itself and succeeds on its parent `"B"`, so the engine
returns success attempted at `"B"` with `config_ret = 0`. -/
theorem claim_C1_eject_first_success_else_last_witness :
    Registry.request_device_eject envC1 (chars "A") =
      { success := true, attempted_instance_id := chars "B", config_ret := 0 } :=
  (claim_C1_eject_first_success_else_last envC1 (chars "A")).1
    [chars "A"] (chars "B") [] (by decide) (by decide) (by decide)

/-- C7: the ancestor-fallback property lookups (string and dword) return
the first non-absent per-node value obtained in `[id] + ancestors(id)`
order, and return `none` exactly when every candidate's query is
absent. -/
theorem claim_C7_property_fallback_first_non_absent (env : DeviceEnv) (instance_id : IStr)
    (prop : Nat) :
    (Registry.setupapi_get_device_property_string_with_parent_fallback env instance_id prop =
        none ↔
      ∀ c ∈ Registry.iter_instance_id_with_ancestors env instance_id,
        Registry.setupapi_get_device_property_string env c prop = none) ∧
    (∀ l1 c l2 v,
        Registry.iter_instance_id_with_ancestors env instance_id = l1 ++ c :: l2 →
        (∀ x ∈ l1, Registry.setupapi_get_device_property_string env x prop = none) →
        Registry.setupapi_get_device_property_string env c prop = some v →
        Registry.setupapi_get_device_property_string_with_parent_fallback env instance_id prop =
          some v) ∧
    (Registry.setupapi_get_device_property_dword_with_parent_fallback env instance_id prop =
        none ↔
      ∀ c ∈ Registry.iter_instance_id_with_ancestors env instance_id,
        Registry.setupapi_get_device_property_dword env c prop = none) ∧
    (∀ l1 c l2 v,
        Registry.iter_instance_id_with_ancestors env instance_id = l1 ++ c :: l2 →
        (∀ x ∈ l1, Registry.setupapi_get_device_property_dword env x prop = none) →
        Registry.setupapi_get_device_property_dword env c prop = some v →
        Registry.setupapi_get_device_property_dword_with_parent_fallback env instance_id prop =
          some v) := by
  refine ⟨?_, ?_, ?_, ?_⟩
  · exact firstSome_eq_none_iff _ _
  · intro l1 c l2 v hsplit hnone hc
    unfold Registry.setupapi_get_device_property_string_with_parent_fallback
    rw [hsplit]
    exact firstSome_first _ l1 c l2 v hnone hc
  · exact firstSome_eq_none_iff _ _
  · intro l1 c l2 v hsplit hnone hc
    unfold Registry.setupapi_get_device_property_dword_with_parent_fallback
    rw [hsplit]
    exact firstSome_first _ l1 c l2 v hnone hc

/-- Witness for C7: in `envC7`, node `"A"` lacks the location-information
property but its parent `"B"` has it, and the fallback lookup returns
`"B"`'s value. -/
theorem claim_C7_property_fallback_first_non_absent_witness :
    Registry.setupapi_get_device_property_string_with_parent_fallback envC7 (chars "A")
      Registry.SPDRP_LOCATION_INFORMATION = some (chars "Port_#0003.Hub_#0002") :=
  (claim_C7_property_fallback_first_non_absent envC7 (chars "A")
      Registry.SPDRP_LOCATION_INFORMATION).2.1
    [chars "A"] (chars "B") [] (chars "Port_#0003.Hub_#0002")
    (by decide) (by decide) (by decide)

/-- C6: `infer_usb_speed` is an ordered first-match classifier: an input
whose concatenated free text contains a superspeed marker together with a
high-speed marker classifies as ("3.0", 5000), because the 3.0 rule is
checked before the 2.0 rule; and an input matching none of the five rules
yields (None, None). -/
theorem claim_C6_speed_first_match_order (compatible_ids : Option (List IStr))
    (service name description caption : IStr) :
    (pyContains (pyUpper (speedText service name description caption))
        (chars "SUPERSPEED") = true →
      (pyContains (pyUpper (speedText service name description caption))
          (chars "HIGH-SPEED") = true ∨
        pyContains (pyUpper (speedText service name description caption))
          (chars "HIGHSPEED") = true) →
      infer_usb_speed compatible_ids service name description caption =
        (some (chars "3.0"), some 5000)) ∧
    (pyContains (pyUpper (speedCompat compatible_ids)) (chars "USB30") = false →
      pyContains (pyUpper service) (chars "USBHUB3") = false →
      pyContains (pyUpper (speedText service name description caption))
        (chars "SUPERSPEED") = false →
      pyContains (pyUpper name) (chars "3.0") = false →
      pyContains (pyUpper (speedText service name description caption))
        (chars "SUPERSPEEDPLUS") = false →
      pyContains (pyUpper (speedText service name description caption))
        (chars "HIGH-SPEED") = false →
      pyContains (pyUpper (speedText service name description caption))
        (chars "HIGHSPEED") = false →
      pyContains (pyUpper (speedText service name description caption))
        (chars "FULL-SPEED") = false →
      pyContains (pyUpper (speedText service name description caption))
        (chars "FULLSPEED") = false →
      pyContains (pyUpper (speedText service name description caption))
        (chars "LOW-SPEED") = false →
      pyContains (pyUpper (speedText service name description caption))
        (chars "LOWSPEED") = false →
      infer_usb_speed compatible_ids service name description caption = (none, none)) := by
  constructor
  · intro hss _
    unfold infer_usb_speed
    simp [hss]
  · intro h1 h2 h3 h4 h5 h6 h7 h8 h9 h10 h11
    unfold infer_usb_speed
    simp [h1, h2, h3, h4, h5, h6, h7, h8, h9, h10, h11]

/-- Witness for C6: a name carrying both markers classifies as
("3.0", 5000), and a markerless input classifies as (None, None). -/
theorem claim_C6_speed_first_match_order_witness :
    infer_usb_speed none (chars "svc") (chars "High-Speed SuperSpeed Hub")
        (chars "d") (chars "c") = (some (chars "3.0"), some 5000) ∧
    infer_usb_speed none (chars "svc") (chars "Plain Device")
        (chars "d") (chars "c") = (none, none) :=
  ⟨(claim_C6_speed_first_match_order none (chars "svc") (chars "High-Speed SuperSpeed Hub")
      (chars "d") (chars "c")).1 (by decide) (Or.inl (by decide)),
   (claim_C6_speed_first_match_order none (chars "svc") (chars "Plain Device")
      (chars "d") (chars "c")).2 (by decide) (by decide) (by decide) (by decide) (by decide)
      (by decide) (by decide) (by decide) (by decide) (by decide) (by decide)⟩

/-- C2 counterexample: storage classification upper-cases before the
prefix test but candidate classification does not, so a record whose
instance id is `"usbstor\disk"` (lower case, no hardware ids) is
classified as USB storage yet NOT as a USB candidate — refuting the
claimed implication for case-insensitively matched records. -/
theorem claim_C2_counterexample_lowercase_usbstor :
    is_usb_storage_pnp_entity { PNPDeviceID := chars "usbstor\\disk" } = true ∧
    is_usb_candidate { PNPDeviceID := chars "usbstor\\disk" } = false := by
  decide

/-- C2 amended: (a) a record whose instance id or one of whose hardware
ids starts with the literal upper-case `"USBSTOR\"` is classified both as
USB storage and as a USB candidate; (b) every id produced by the storage
scan appears in the base service's device-id list (storage refines
base). -/
theorem claim_C2_amended_storage_refines_base :
    (∀ e : PnPEntity,
      (pyStartswith e.PNPDeviceID (chars "USBSTOR\\") = true ∨
        (∃ hid ∈ e.HardwareID.getD [], pyStartswith hid (chars "USBSTOR\\") = true)) →
      is_usb_candidate e = true ∧ is_usb_storage_pnp_entity e = true) ∧
    (∀ (env : DeviceEnv) (st : UsbStorage.StorageState) (did : UsbDeviceId),
      did ∈ (UsbStorage.scan_usb_storage_devices_uncached env st).1.device_ids →
      did ∈ UsbBase.list_base_device_ids env) := by
  constructor
  · intro e he
    constructor
    · rcases he with hinst | ⟨hid, hmem, hpre⟩
      · have husb : pyStartswith e.PNPDeviceID (chars "USB") = true := by
          have : chars "USBSTOR\\" = chars "USB" ++ chars "STOR\\" := by decide
          rw [this] at hinst
          exact isPrefixOf_append_left (chars "USB") (chars "STOR\\") _ hinst
        simp [is_usb_candidate, husb]
      · exact is_usb_candidate_of_any_hid e
          (List.any_eq_true.mpr ⟨hid, hmem, by simp [hpre]⟩)
    · rcases he with hinst | ⟨hid, hmem, hpre⟩
      · have hupper : pyStartswith (pyUpper e.PNPDeviceID) (chars "USBSTOR\\") = true := by
          have hmap := isPrefixOf_map pyUpperChar (chars "USBSTOR\\") e.PNPDeviceID hinst
          have heq : (chars "USBSTOR\\").map pyUpperChar = chars "USBSTOR\\" := by decide
          rw [heq] at hmap
          exact hmap
        simp [is_usb_storage_pnp_entity, hupper]
      · have hupper : pyStartswith (pyUpper hid) (chars "USBSTOR\\") = true := by
          have hmap := isPrefixOf_map pyUpperChar (chars "USBSTOR\\") hid hpre
          have heq : (chars "USBSTOR\\").map pyUpperChar = chars "USBSTOR\\" := by decide
          rw [heq] at hmap
          exact hmap
        have hany : (e.HardwareID.getD []).any
            (fun h2 => pyStartswith (pyUpper h2) (chars "USBSTOR\\")) = true :=
          List.any_eq_true.mpr ⟨hid, hmem, hupper⟩
        simp [is_usb_storage_pnp_entity, hany]
  · intro env st did hmem
    unfold UsbStorage.scan_usb_storage_devices_uncached at hmem
    simp only [List.mem_map] at hmem
    obtain ⟨iid, hiid, rfl⟩ := hmem
    obtain ⟨e, he, rfl⟩ := hiid
    have hescan : e ∈ UsbBase.scan_usb_pnp_entities env := by
      have := List.mem_of_mem_filter he
      simpa [UsbBase.get_usb_pnp_entities] using this
    unfold UsbBase.list_base_device_ids
    rw [(List.mergeSort_perm _ UsbBase.idLe).mem_iff]
    exact List.mem_map.mpr ⟨e, hescan, rfl⟩

/-- Witness for the amended C2: the canonical upper-case storage record
`entC2` is a USB candidate, and its storage-scan id appears in the base
device-id list of `envC2`. -/
theorem claim_C2_amended_storage_refines_base_witness :
    is_usb_candidate entC2 = true ∧
    UsbDeviceId.mk (chars "USBSTOR\\DISK&VEN_X\\0123") ∈
      UsbBase.list_base_device_ids envC2 :=
  ⟨(claim_C2_amended_storage_refines_base.1 entC2 (Or.inl (by decide))).1,
   claim_C2_amended_storage_refines_base.2 envC2 {}
     (UsbDeviceId.mk (chars "USBSTOR\\DISK&VEN_X\\0123")) (by decide)⟩

/-- C4 counterexample: the VID/PID patterns are compiled WITHOUT
`re.IGNORECASE`, so a lowercase marker `vid_`/`pid_` is not matched: on
`"usb\vid_0781&pid_5567\aa11"` the parser yields `None` for both fields,
while the claim predicts `some "0781"` / `some "5567"` for any letter
case of the marker. -/
theorem claim_C4_counterexample_lowercase_marker :
    (parse_usb_ids (chars "usb\\vid_0781&pid_5567\\aa11")).vendor_id = none ∧
    (parse_usb_ids (chars "usb\\vid_0781&pid_5567\\aa11")).product_id = none := by
  decide

/-- C4 amended: for every instance-id string, `parse_usb_ids` matches the
markers `VID_` / `PID_` case-SENSITIVELY (the patterns are compiled
without `re.IGNORECASE`) followed by 4 hex digits of either case: the
field is `None` exactly when no position of the string matches, and
otherwise equals the upper-casing of the leftmost match's 4-digit group,
regardless of surrounding content; the parser is a total function (no
exception). -/
theorem claim_C4_amended_vid_pid_leftmost_uppercased (s : IStr) :
    ((parse_usb_ids s).vendor_id = none ↔
      ∀ i, tokenMatchAt vidMarker (s.drop i) = none) ∧
    (∀ i g, tokenMatchAt vidMarker (s.drop i) = some g →
      (∀ j, j < i → tokenMatchAt vidMarker (s.drop j) = none) →
      (parse_usb_ids s).vendor_id = some (pyUpper g)) ∧
    ((parse_usb_ids s).product_id = none ↔
      ∀ i, tokenMatchAt pidMarker (s.drop i) = none) ∧
    (∀ i g, tokenMatchAt pidMarker (s.drop i) = some g →
      (∀ j, j < i → tokenMatchAt pidMarker (s.drop j) = none) →
      (parse_usb_ids s).product_id = some (pyUpper g)) := by
  refine ⟨?_, ?_, ?_, ?_⟩
  · rw [show (parse_usb_ids s).vendor_id = (searchToken vidMarker s).map pyUpper from rfl]
    rw [Option.map_eq_none']
    exact searchToken_eq_none_iff vidMarker s
  · intro i g hmatch hbefore
    rw [show (parse_usb_ids s).vendor_id = (searchToken vidMarker s).map pyUpper from rfl]
    rw [searchToken_first vidMarker s i g hmatch hbefore]
    rfl
  · rw [show (parse_usb_ids s).product_id = (searchToken pidMarker s).map pyUpper from rfl]
    rw [Option.map_eq_none']
    exact searchToken_eq_none_iff pidMarker s
  · intro i g hmatch hbefore
    rw [show (parse_usb_ids s).product_id = (searchToken pidMarker s).map pyUpper from rfl]
    rw [searchToken_first pidMarker s i g hmatch hbefore]
    rfl

/-- Witness for the amended C4: in `"USB\VID_07a1&PID_5b67\X"` the
leftmost `VID_`/`PID_` matches are at offsets 4 and 13, and the parsed
ids are the upper-cased groups. -/
theorem claim_C4_amended_vid_pid_leftmost_uppercased_witness :
    (parse_usb_ids (chars "USB\\VID_07a1&PID_5b67\\X")).vendor_id =
        some (pyUpper (chars "07a1")) ∧
    (parse_usb_ids (chars "USB\\VID_07a1&PID_5b67\\X")).product_id =
        some (pyUpper (chars "5b67")) :=
  ⟨(claim_C4_amended_vid_pid_leftmost_uppercased (chars "USB\\VID_07a1&PID_5b67\\X")).2.1
      4 (chars "07a1") (by decide) (by decide),
   (claim_C4_amended_vid_pid_leftmost_uppercased (chars "USB\\VID_07a1&PID_5b67\\X")).2.2.2
      13 (chars "5b67") (by decide) (by decide)⟩

/-- C3 counterexample: in `envC3` the device `"USB\A"` lacks both the
location-information and the bus-number property while its parent
`"USB\HUB"` has them (the registry's ancestor-fallback lookups find
`"Port_#0004.Hub_#0001"` and bus 7, so the claim predicts port 4 and
bus 7) — yet `get_base_device_info` resolves both via the base service's
direct single-node lookups and returns `None` for both. -/
theorem claim_C3_counterexample_direct_lookup_ignores_ancestors :
    (UsbBase.get_base_device_info envC3 (UsbDeviceId.mk (chars "USB\\A"))).map
        (fun info => (info.port_number, info.bus_number)) = some (none, none) ∧
    UsbBase.get_device_location_information envC3 (chars "USB\\A") = none ∧
    UsbBase.get_device_bus_number envC3 (chars "USB\\A") = none ∧
    Registry.get_device_location_information envC3 (chars "USB\\A") =
      some (chars "Port_#0004.Hub_#0001") ∧
    Registry.get_device_bus_number envC3 (chars "USB\\A") = some 7 := by
  decide

/-- C3 amended: `get_base_device_info` resolves location information and
bus number by a DIRECT property query on the device's own node (the base
service's `_get_device_location_information` / `_get_device_bus_number`),
not by the ancestor-fallback lookup: the returned `bus_number` equals the
direct dword lookup, the returned `port_number` is parsed from the direct
location lookup, and whenever the own node lacks the property the
returned field is `None` — regardless of what any ancestor carries. -/
theorem claim_C3_amended_location_bus_direct_only (env : DeviceEnv) (did : UsbDeviceId)
    (info : UsbBaseDeviceInfo)
    (h : UsbBase.get_base_device_info env did = some info) :
    info.bus_number = UsbBase.get_device_bus_number env did.instance_id ∧
    info.port_number =
      (parse_bus_port (UsbBase.get_device_location_information env did.instance_id)).2 ∧
    (UsbBase.get_device_location_information env did.instance_id = none →
      info.port_number = none) ∧
    (UsbBase.get_device_bus_number env did.instance_id = none →
      info.bus_number = none) := by
  unfold UsbBase.get_base_device_info at h
  cases hfind : (UsbBase.scan_usb_pnp_entities env).find?
      (fun c => c.PNPDeviceID = did.instance_id) with
  | none =>
    rw [hfind] at h
    exact absurd h (by simp)
  | some entity =>
    rw [hfind] at h
    have h2 := Option.some.inj h
    subst h2
    refine ⟨rfl, rfl, ?_, ?_⟩
    · intro hnone
      show (parse_bus_port (UsbBase.get_device_location_information env did.instance_id)).2 =
        none
      rw [hnone]
      rfl
    · intro hnone
      show UsbBase.get_device_bus_number env did.instance_id = none
      exact hnone

/-- Witness for the amended C3: applied to `envC3`, where the own node
has no properties, the returned port and bus are `None`. -/
theorem claim_C3_amended_location_bus_direct_only_witness :
    UsbBase.get_base_device_info envC3 (UsbDeviceId.mk (chars "USB\\A")) =
        some { id := UsbDeviceId.mk (chars "USB\\A") } ∧
    ({ id := UsbDeviceId.mk (chars "USB\\A") } : UsbBaseDeviceInfo).port_number = none ∧
    ({ id := UsbDeviceId.mk (chars "USB\\A") } : UsbBaseDeviceInfo).bus_number = none :=
  ⟨by decide,
   (claim_C3_amended_location_bus_direct_only envC3 (UsbDeviceId.mk (chars "USB\\A"))
       { id := UsbDeviceId.mk (chars "USB\\A") } (by decide)).2.2.1 (by decide),
   (claim_C3_amended_location_bus_direct_only envC3 (UsbDeviceId.mk (chars "USB\\A"))
       { id := UsbDeviceId.mk (chars "USB\\A") } (by decide)).2.2.2 (by decide)⟩

/-- C5 counterexample: `"USB\A\"` has three backslash-delimited segments
whose last segment is empty; the claim predicts the serial equals that
(empty) last segment, but the code's truthiness guard (`and parts[-1]`)
yields `None`. -/
theorem claim_C5_counterexample_empty_last_segment :
    (splitBS (chars "USB\\A\\")).length = 3 ∧
    (splitBS (chars "USB\\A\\")).getLast? = some [] ∧
    (parse_usb_ids (chars "USB\\A\\")).serial_number = none := by
  decide

/-- C5 amended: for instance ids containing no two consecutive
backslashes (so the double-backslash pre-split of the code is inert):
fewer than three backslash-delimited segments yield a `None` serial; with
at least three segments the serial equals the last segment when that
segment is non-empty, and is `None` when the last segment is empty. -/
theorem claim_C5_amended_serial_last_segment (s : IStr)
    (h : noDoubleBackslash s = true) :
    ((splitBS s).length < 3 → (parse_usb_ids s).serial_number = none) ∧
    (3 ≤ (splitBS s).length → (splitBS s).getLast? = some [] →
      (parse_usb_ids s).serial_number = none) ∧
    (∀ last, 3 ≤ (splitBS s).length → (splitBS s).getLast? = some last → last ≠ [] →
      (parse_usb_ids s).serial_number = some last) := by
  have hsplit2 : splitBS2 s = [s] := splitBS2_eq_single s h
  have key : (parse_usb_ids s).serial_number =
      if 3 ≤ (splitBS s).length ∧ (splitBS s).getLast? ≠ some [] ∧
          (splitBS s).getLast? ≠ none
      then (splitBS s).getLast? else none := by
    unfold parse_usb_ids
    rw [hsplit2]
    norm_num
  refine ⟨?_, ?_, ?_⟩
  · intro hlt
    rw [key, if_neg]
    rintro ⟨h3, -, -⟩
    omega
  · intro _ hlast
    rw [key, if_neg]
    rintro ⟨-, hne, -⟩
    exact hne hlast
  · intro last h3 hlast hne
    rw [key, if_pos ⟨h3, by rw [hlast]; simpa using hne, by rw [hlast]; simp⟩]
    exact hlast

/-- Witness for the amended C5: a three-segment id with a non-empty last
segment parses that segment as the serial. -/
theorem claim_C5_amended_serial_last_segment_witness :
    noDoubleBackslash (chars "USB\\VID\\SER") = true ∧
    (parse_usb_ids (chars "USB\\VID\\SER")).serial_number = some (chars "SER") :=
  ⟨by decide,
   (claim_C5_amended_serial_last_segment (chars "USB\\VID\\SER") (by decide)).2.2
     (chars "SER") (by decide) (by decide) (by decide)⟩

/-- C8: with an established (non-empty, cached) storage-device-id list,
`eject_storage_device` raises `NotFound` (modelled as outcome `none`)
exactly when the requested id is absent from that list, and in that case
no OS eject request is issued and the state is unchanged; when the eject
engine's result is successful the service refreshes itself, and on a
failing result the cached state is left unchanged. -/
theorem claim_C8_eject_notfound_refresh_on_success (env : DeviceEnv)
    (s : UsbStorage.StorageState) (ids : List UsbDeviceId) (did : UsbDeviceId)
    (hcache : s.usb_device_ids_cache = some ids) (hne : ids ≠ []) :
    ((UsbStorage.eject_storage_device env s did).outcome = none ↔
      ids.any (fun d => d.instance_id = did.instance_id) = false) ∧
    (ids.any (fun d => d.instance_id = did.instance_id) = false →
      (UsbStorage.eject_storage_device env s did).ejectIssued = false ∧
      (UsbStorage.eject_storage_device env s did).state = s) ∧
    (ids.any (fun d => d.instance_id = did.instance_id) = true →
      (Registry.request_device_eject env did.instance_id).success = true →
      (UsbStorage.eject_storage_device env s did).outcome =
          some (Registry.request_device_eject env did.instance_id) ∧
      (UsbStorage.eject_storage_device env s did).state = UsbStorage.refresh s ∧
      (UsbStorage.eject_storage_device env s did).ejectIssued = true) ∧
    (ids.any (fun d => d.instance_id = did.instance_id) = true →
      (Registry.request_device_eject env did.instance_id).success = false →
      (UsbStorage.eject_storage_device env s did).outcome =
          some (Registry.request_device_eject env did.instance_id) ∧
      (UsbStorage.eject_storage_device env s did).state = s ∧
      (UsbStorage.eject_storage_device env s did).ejectIssued = true) := by
  have hempty : ids.isEmpty = false := by
    cases ids with
    | nil => exact absurd rfl hne
    | cons a t => rfl
  have hids : UsbStorage.get_usb_device_ids env s = (ids, s) := by
    unfold UsbStorage.get_usb_device_ids
    rw [hcache]
    simp [UsbStorage.cacheFalsy, hempty]
  unfold UsbStorage.eject_storage_device
  rw [hids]
  by_cases hany : ids.any (fun d => d.instance_id = did.instance_id) = true
  · refine ⟨?_, ?_, ?_, ?_⟩
    · simp [hany]
    · intro hfalse
      rw [hany] at hfalse
      exact absurd hfalse (by simp)
    · intro _ hsucc
      simp [hany, hsucc]
    · intro _ hfail
      simp [hany, hfail]
  · have hfalse : ids.any (fun d => d.instance_id = did.instance_id) = false := by
      simpa using hany
    refine ⟨?_, ?_, ?_, ?_⟩
    · simp [hfalse]
    · intro _
      simp [hfalse]
    · intro htrue
      exact absurd htrue hany
    · intro htrue
      exact absurd htrue hany

/-- Witness for C8: ejecting the absent id `"D2"` from a state whose
cached list holds only `"D1"` raises `NotFound`, issues no OS call, and
leaves the state unchanged. -/
theorem claim_C8_eject_notfound_refresh_on_success_witness :
    (UsbStorage.eject_storage_device envC8 sC8 (UsbDeviceId.mk (chars "D2"))).ejectIssued =
        false ∧
    (UsbStorage.eject_storage_device envC8 sC8 (UsbDeviceId.mk (chars "D2"))).state = sC8 :=
  (claim_C8_eject_notfound_refresh_on_success envC8 sC8 [UsbDeviceId.mk (chars "D1")]
      (UsbDeviceId.mk (chars "D2")) (by decide) (by decide)).2.1 (by decide)

/-- C9 counterexample: the size fields are parsed independently with no
cross-check, so a logical disk reporting `Size="1000"`,
`FreeSpace="2000"` produces a `VolumeInfo` violating
`free_bytes ≤ total_bytes`. -/
theorem claim_C9_counterexample_free_exceeds_total :
    (UsbStorage.get_volumes_for_partition partC9).map
        (fun v => (v.free_bytes, v.total_bytes)) = [(some 2000, some 1000)] ∧
    (1000 : Int) < 2000 := by
  decide

/-- C9 amended: each produced `VolumeInfo` takes `total_bytes` /
`free_bytes` verbatim from the defensive parse of the corresponding
logical disk's `Size` / `FreeSpace` strings (absent input yields `None`,
and the parse itself absorbs non-numeric strings to `None` instead of
raising); consequently `free ≤ total` holds for the produced volumes
whenever it holds for the parsed OS-reported pairs — the code itself does
not enforce it. -/
theorem claim_C9_amended_defensive_parse_no_enforcement
    (partition : WmiDiskPartition) :
    (∀ v ∈ UsbStorage.get_volumes_for_partition partition,
      ∃ ld ∈ partition.logicalDisks,
        v.total_bytes = UsbStorage.parse_optional_int ld.Size ∧
        v.free_bytes = UsbStorage.parse_optional_int ld.FreeSpace) ∧
    ((∀ ld ∈ partition.logicalDisks, ∀ f t : Int,
        UsbStorage.parse_optional_int ld.FreeSpace = some f →
        UsbStorage.parse_optional_int ld.Size = some t → f ≤ t) →
      ∀ v ∈ UsbStorage.get_volumes_for_partition partition, ∀ f t : Int,
        v.free_bytes = some f → v.total_bytes = some t → f ≤ t) ∧
    UsbStorage.parse_optional_int none = none := by
  refine ⟨?_, ?_, rfl⟩
  · intro v hv
    unfold UsbStorage.get_volumes_for_partition at hv
    rw [List.mem_map] at hv
    obtain ⟨ld, hld, rfl⟩ := hv
    exact ⟨ld, hld, rfl, rfl⟩
  · intro hwf v hv f t hf ht
    unfold UsbStorage.get_volumes_for_partition at hv
    rw [List.mem_map] at hv
    obtain ⟨ld, hld, rfl⟩ := hv
    exact hwf ld hld f t hf ht

/-- Witness for the amended C9: the well-formed partition `partC9ok`
resolves to `volC9ok` and its parsed pair satisfies free ≤ total. -/
theorem claim_C9_amended_defensive_parse_no_enforcement_witness :
    UsbStorage.get_volumes_for_partition partC9ok = [volC9ok] ∧ (500 : Int) ≤ 1000 :=
  ⟨by decide,
   (claim_C9_amended_defensive_parse_no_enforcement partC9ok).2.1
     (by
       intro ld hld f t hf ht
       have hld2 : ld = ldC9ok := by simpa [partC9ok] using hld
       subst hld2
       have h1 : UsbStorage.parse_optional_int ldC9ok.FreeSpace = some 500 := by decide
       have h2 : UsbStorage.parse_optional_int ldC9ok.Size = some 1000 := by decide
       rw [h1] at hf
       rw [h2] at ht
       have hf2 := Option.some.inj hf
       have ht2 := Option.some.inj ht
       omega)
     volC9ok (by decide) 500 1000 (by decide) (by decide)⟩

/-- C10: the ("3.1", 10000) classification is unreachable: any text whose
upper-casing contains "SUPERSPEEDPLUS" also contains "SUPERSPEED", so the
earlier 3.0 rule always fires first.  Stated positively: every output of
`infer_usb_speed` lies in the set of the other five outcomes, which
excludes `(some "3.1", some 10000)`. -/
theorem claim_C10_usb31_branch_unreachable (compatible_ids : Option (List IStr))
    (service name description caption : IStr) :
    infer_usb_speed compatible_ids service name description caption ∈
      [(some (chars "3.0"), some (5000 : ℚ)), (some (chars "2.0"), some 480),
        (some (chars "1.1"), some 12), (some (chars "1.0"), some (3 / 2)),
        (none, none)] := by
  unfold infer_usb_speed
  by_cases hc1 : (pyContains (pyUpper (speedCompat compatible_ids)) (chars "USB30")
      || pyContains (pyUpper service) (chars "USBHUB3")
      || pyContains (pyUpper (speedText service name description caption)) (chars "SUPERSPEED")
      || pyContains (pyUpper name) (chars "3.0")) = true
  · simp only [hc1, if_true]
    simp
  · have hss : pyContains (pyUpper (speedText service name description caption))
        (chars "SUPERSPEED") = false := by
      rcases hval : pyContains (pyUpper (speedText service name description caption))
          (chars "SUPERSPEED") with _ | _
      · rfl
      · exact absurd (by simp [hval]) hc1
    have hssp : pyContains (pyUpper (speedText service name description caption))
        (chars "SUPERSPEEDPLUS") = false := by
      rcases hval : pyContains (pyUpper (speedText service name description caption))
          (chars "SUPERSPEEDPLUS") with _ | _
      · rfl
      · have : pyContains (pyUpper (speedText service name description caption))
            (chars "SUPERSPEED") = true :=
          pyContains_append_left _ (chars "SUPERSPEED") (chars "PLUS") (by exact hval)
        rw [this] at hss
        exact absurd hss (by simp)
    simp only [Bool.not_eq_true] at hc1
    simp only [hc1, hssp, Bool.false_eq_true, if_false]
    split
    · simp
    · split
      · simp
      · split
        · simp
        · simp

end UManager
